import Mathlib

/-!
Verification of the smoking-bot counter logic.

This file gives a shallow embedding of the core of the repository
(src/logic.js and src/index.js): the persisted counter record, the lazy
day-rollover, the numeric adjustment, the scheduled daily reset, the
daily streak/reward evaluation, the count-response composer, the
keyword classifier for free-text interactions, and the webhook message
router.  File I/O (loadData/saveData) and the chat SDK calls are
projected away: each handler is embedded as its effect on the persisted
record, with the ambient current date (getToday in the source) passed
as an explicit argument, and the reply text modelled by the pure
response functions.  JS numbers, which only ever hold integer values in
this code, are embedded as Int.
-/

/-- The persisted counter record stored in data.json (src/logic.js):
fields date (a YYYY-MM-DD string), today, yesterday and streak. -/
structure CounterData where
  date : String
  today : Int
  yesterday : Int
  streak : Int
  deriving DecidableEq, Repr

/-- autoResetIfNewDay (src/logic.js): if the stored date differs from the
current date, move today into yesterday, zero today and stamp the current
date; otherwise leave the record alone.  The source mutates the record in
place and returns it; here it is a pure record update. -/
def autoResetIfNewDay (data : CounterData) (currentDate : String) : CounterData :=
  if data.date ≠ currentDate then
    { data with yesterday := data.today, today := 0, date := currentDate }
  else
    data

/-- State effect of handleAdjust (src/logic.js): run the lazy rollover on
the loaded record, add the signed amount to today, clamp today below at
zero, and save.  The reply it sends is composed by generateResponse. -/
def handleAdjust (data : CounterData) (currentDate : String) (amount : Int) : CounterData :=
  let d := autoResetIfNewDay data currentDate
  let d2 := { d with today := d.today + amount }
  if d2.today < 0 then { d2 with today := 0 } else d2

/-- resetDaily (src/logic.js), the scheduled daily reset: run the lazy
rollover, then unconditionally move today into yesterday and zero today,
and save.  The streak field is left for summarizeDay to update. -/
def resetDaily (data : CounterData) (currentDate : String) : CounterData :=
  let d := autoResetIfNewDay data currentDate
  { d with yesterday := d.today, today := 0 }

/-- Persisted-state effect of handleCommand (src/logic.js): every branch
first runs the lazy rollover on the loaded record, but only the /重設
branch writes the record back via saveData, zeroing today; the query,
help and weather branches reply without saving, so the stored record is
unchanged there. -/
def handleCommandState (msg : String) (data : CounterData) (currentDate : String) :
    CounterData :=
  if msg = "/重設" then
    let d := autoResetIfNewDay data currentDate
    { d with today := 0 }
  else
    data

/-- One entry of rewards.json: an image URL and a caption. -/
structure Reward where
  image : String
  text : String
  deriving DecidableEq, Repr

/-- JS array subscript arr[i] under a signed index: out-of-range access
(negative, or at least the length) yields undefined, embedded as none. -/
def jsIndex {α : Type} (l : List α) (i : Int) : Option α :=
  if i < 0 then none else l.get? i.toNat

/-- State-and-reward effect of summarizeDay (src/logic.js): run the lazy
rollover; if today < yesterday, increment the streak and pick the reward
rewards[Math.min(streak, rewards.length) - 1], otherwise zero the streak
with no reward; save.  The pushed messages are omitted; the catalogue
rewards.json is passed as an explicit list. -/
def summarizeDay (rewards : List Reward) (data : CounterData) (currentDate : String) :
    CounterData × Option Reward :=
  let d := autoResetIfNewDay data currentDate
  if d.today < d.yesterday then
    let streak := d.streak + 1
    let stage := min streak (rewards.length : Int)
    ({ d with streak := streak }, jsIndex rewards (stage - 1))
  else
    ({ d with streak := 0 }, none)

/-- The stored date after a rollover check is always the current date. -/
theorem autoResetIfNewDay_date (data : CounterData) (currentDate : String) :
    (autoResetIfNewDay data currentDate).date = currentDate := by
  unfold autoResetIfNewDay
  split
  · rfl
  · next h => simpa using h

/-- When the stored date is already current, the rollover check is the
identity. -/
theorem autoResetIfNewDay_self (data : CounterData) (currentDate : String)
    (h : data.date = currentDate) : autoResetIfNewDay data currentDate = data := by
  unfold autoResetIfNewDay
  simp [h]

/-- C1: handleAdjust sets today to max 0 (today + amount), for deltas of
either sign and any magnitude, clamped below at zero and unclamped above.
Stated against the record the adjustment acts on: unconditionally against
the record once the lazy rollover has run, and, whenever the stored date
is current (so the rollover is the identity), against the input record
itself, as the spec states it. -/
theorem adjust_clamps_at_zero (data : CounterData) (currentDate : String) (amount : Int) :
    (handleAdjust data currentDate amount).today =
      max 0 ((autoResetIfNewDay data currentDate).today + amount) ∧
    (data.date = currentDate →
      (handleAdjust data currentDate amount).today = max 0 (data.today + amount)) := by
  constructor
  · simp only [handleAdjust]
    split <;> simp <;> omega
  · intro h
    simp only [handleAdjust, autoResetIfNewDay_self data currentDate h]
    split <;> simp <;> omega

/-- Witness for C1: a negative delta larger than the count clamps to 0,
here 5 + (-7). -/
theorem adjust_clamps_at_zero_witness :
    (handleAdjust ⟨"2024-01-02", 5, 9, 1⟩ "2024-01-02" (-7)).today = max 0 (5 + (-7)) :=
  (adjust_clamps_at_zero ⟨"2024-01-02", 5, 9, 1⟩ "2024-01-02" (-7)).2 rfl

/-- C3: the day rollover is idempotent within a day: applying it twice
with the same current date equals applying it once; when the stored date
differs it sets yesterday to today, zeroes today and stamps the current
date, and when the dates match it leaves the record unchanged. -/
theorem autoReset_idempotent (data : CounterData) (currentDate : String) :
    autoResetIfNewDay (autoResetIfNewDay data currentDate) currentDate =
      autoResetIfNewDay data currentDate ∧
    (data.date ≠ currentDate →
      autoResetIfNewDay data currentDate =
        { data with yesterday := data.today, today := 0, date := currentDate }) ∧
    (data.date = currentDate → autoResetIfNewDay data currentDate = data) := by
  refine ⟨?_, ?_, autoResetIfNewDay_self data currentDate⟩
  · exact autoResetIfNewDay_self _ _ (autoResetIfNewDay_date data currentDate)
  · intro h
    unfold autoResetIfNewDay
    simp [h]

/-- Witness for C3: a concrete stale record rolls over once, and a second
application with the same date does nothing further. -/
theorem autoReset_idempotent_witness :
    autoResetIfNewDay (autoResetIfNewDay ⟨"2024-01-01", 5, 3, 1⟩ "2024-01-02") "2024-01-02" =
      autoResetIfNewDay ⟨"2024-01-01", 5, 3, 1⟩ "2024-01-02" ∧
    autoResetIfNewDay ⟨"2024-01-01", 5, 3, 1⟩ "2024-01-02" = ⟨"2024-01-02", 0, 5, 1⟩ :=
  ⟨(autoReset_idempotent ⟨"2024-01-01", 5, 3, 1⟩ "2024-01-02").1,
   (autoReset_idempotent ⟨"2024-01-01", 5, 3, 1⟩ "2024-01-02").2.1 (by decide)⟩

/-- Counterexample for C4: resetDaily after a same-day lazy rollover is
not a no-op.  Rolling ⟨2024-01-01, today 5, yesterday 3, streak 1⟩ over
to 2024-01-02 gives ⟨2024-01-02, 0, 5, 1⟩, and resetDaily then overwrites
yesterday with 0, yielding ⟨2024-01-02, 0, 0, 1⟩. -/
theorem resetDaily_after_rollover_counterexample :
    resetDaily (autoResetIfNewDay ⟨"2024-01-01", 5, 3, 1⟩ "2024-01-02") "2024-01-02" ≠
      autoResetIfNewDay ⟨"2024-01-01", 5, 3, 1⟩ "2024-01-02" := by
  decide

/-- C4 (amended): resetDaily after a lazy rollover with the same current
date always moves the (post-rollover) today into yesterday and zeroes
today again; it leaves the record unchanged exactly when the rolled-over
record already has today = 0 and yesterday = 0. -/
theorem resetDaily_after_rollover_iff (data : CounterData) (currentDate : String) :
    resetDaily (autoResetIfNewDay data currentDate) currentDate =
      { autoResetIfNewDay data currentDate with
          yesterday := (autoResetIfNewDay data currentDate).today, today := 0 } ∧
    (resetDaily (autoResetIfNewDay data currentDate) currentDate =
        autoResetIfNewDay data currentDate ↔
      (autoResetIfNewDay data currentDate).today = 0 ∧
      (autoResetIfNewDay data currentDate).yesterday = 0) := by
  have hfix := autoResetIfNewDay_self (autoResetIfNewDay data currentDate) currentDate
    (autoResetIfNewDay_date data currentDate)
  have h1 : resetDaily (autoResetIfNewDay data currentDate) currentDate =
      { autoResetIfNewDay data currentDate with
          yesterday := (autoResetIfNewDay data currentDate).today, today := 0 } := by
    simp only [resetDaily, hfix]
  refine ⟨h1, ?_⟩
  rw [h1]
  cases autoResetIfNewDay data currentDate with
  | mk d t y s =>
    simp only [CounterData.mk.injEq, true_and, and_true]
    omega

/-- Witness for C4 (amended): for a record already on the current date
with both counts zero, resetDaily after the rollover really is a no-op,
and the rolled-over form is as stated. -/
theorem resetDaily_after_rollover_iff_witness :
    resetDaily (autoResetIfNewDay ⟨"2024-01-02", 0, 0, 4⟩ "2024-01-02") "2024-01-02" =
      autoResetIfNewDay ⟨"2024-01-02", 0, 0, 4⟩ "2024-01-02" :=
  (resetDaily_after_rollover_iff ⟨"2024-01-02", 0, 0, 4⟩ "2024-01-02").2.mpr (by decide)

/-- C5: the manual reset command /重設 zeroes today only.  The streak is
untouched unconditionally, and whenever the stored date is current (so
the lazy rollover that every command branch performs first is the
identity) the persisted record is exactly the input with today set to 0,
leaving yesterday and streak unchanged. -/
theorem resetCommand_zeroes_today_only (data : CounterData) (currentDate : String) :
    (handleCommandState "/重設" data currentDate).streak = data.streak ∧
    (handleCommandState "/重設" data currentDate).today = 0 ∧
    (data.date = currentDate →
      handleCommandState "/重設" data currentDate = { data with today := 0 }) := by
  have hcmd : handleCommandState "/重設" data currentDate =
      { autoResetIfNewDay data currentDate with today := 0 } := by
    simp [handleCommandState]
  refine ⟨?_, ?_, ?_⟩
  · rw [hcmd]
    unfold autoResetIfNewDay
    split <;> rfl
  · rw [hcmd]
  · intro h
    rw [hcmd, autoResetIfNewDay_self data currentDate h]

/-- Witness for C5: resetting ⟨2024-01-02, 7, 12, 3⟩ on 2024-01-02 gives
today 0 with yesterday 12 and streak 3 intact. -/
theorem resetCommand_zeroes_today_only_witness :
    handleCommandState "/重設" ⟨"2024-01-02", 7, 12, 3⟩ "2024-01-02" =
      ⟨"2024-01-02", 0, 12, 3⟩ :=
  (resetCommand_zeroes_today_only ⟨"2024-01-02", 7, 12, 3⟩ "2024-01-02").2.2 rfl

/-- C2: daily evaluation.  When the stored date is current, summarizeDay
increments the streak and returns the catalogue entry at index
min(streak, length) - 1 if today < yesterday, and otherwise zeroes the
streak and returns no reward; in particular today 3, yesterday 5,
streak 2 yields streak 3 and the reward at index min(3, length) - 1,
for any catalogue. -/
theorem summarizeDay_streak_reward :
    (∀ (rewards : List Reward) (data : CounterData) (currentDate : String),
      data.date = currentDate →
        (data.today < data.yesterday →
          (summarizeDay rewards data currentDate).1.streak = data.streak + 1 ∧
          (summarizeDay rewards data currentDate).2 =
            jsIndex rewards (min (data.streak + 1) (rewards.length : Int) - 1)) ∧
        (¬ data.today < data.yesterday →
          (summarizeDay rewards data currentDate).1.streak = 0 ∧
          (summarizeDay rewards data currentDate).2 = none)) ∧
    (∀ (rewards : List Reward) (currentDate : String),
      (summarizeDay rewards ⟨currentDate, 3, 5, 2⟩ currentDate).1.streak = 3 ∧
      (summarizeDay rewards ⟨currentDate, 3, 5, 2⟩ currentDate).2 =
        jsIndex rewards (min 3 (rewards.length : Int) - 1)) := by
  have main : ∀ (rewards : List Reward) (data : CounterData) (currentDate : String),
      data.date = currentDate →
        (data.today < data.yesterday →
          (summarizeDay rewards data currentDate).1.streak = data.streak + 1 ∧
          (summarizeDay rewards data currentDate).2 =
            jsIndex rewards (min (data.streak + 1) (rewards.length : Int) - 1)) ∧
        (¬ data.today < data.yesterday →
          (summarizeDay rewards data currentDate).1.streak = 0 ∧
          (summarizeDay rewards data currentDate).2 = none) := by
    intro rewards data currentDate h
    simp only [summarizeDay, autoResetIfNewDay_self data currentDate h]
    constructor
    · intro hlt
      rw [if_pos hlt]
      exact ⟨rfl, rfl⟩
    · intro hge
      rw [if_neg hge]
      exact ⟨rfl, rfl⟩
  refine ⟨main, ?_⟩
  intro rewards currentDate
  have := (main rewards ⟨currentDate, 3, 5, 2⟩ currentDate rfl).1 (by norm_num)
  exact this

/-- Witness for C2: with a two-entry catalogue and record today 3,
yesterday 5, streak 2 the evaluation reaches streak 3 and awards the
capped (second) entry. -/
theorem summarizeDay_streak_reward_witness :
    (summarizeDay [⟨"u1", "t1"⟩, ⟨"u2", "t2"⟩] ⟨"2024-01-02", 3, 5, 2⟩ "2024-01-02").1.streak
        = 3 ∧
    (summarizeDay [⟨"u1", "t1"⟩, ⟨"u2", "t2"⟩] ⟨"2024-01-02", 3, 5, 2⟩ "2024-01-02").2 =
      jsIndex [⟨"u1", "t1"⟩, ⟨"u2", "t2"⟩] (min 3 (([⟨"u1", "t1"⟩, ⟨"u2", "t2"⟩] :
        List Reward).length : Int) - 1) :=
  summarizeDay_streak_reward.2 [⟨"u1", "t1"⟩, ⟨"u2", "t2"⟩] "2024-01-02"

/-- C8: the record invariant today ≥ 0 and yesterday ≥ 0. -/
def CounterInv (data : CounterData) : Prop :=
  0 ≤ data.today ∧ 0 ≤ data.yesterday

/-- C8: every state operation preserves the invariant today ≥ 0 and
yesterday ≥ 0: the clamped adjustment with any integer delta, the lazy
day rollover, the scheduled daily reset, the manual reset command, and
the daily streak evaluation. -/
theorem counter_invariant_preserved (data : CounterData) (currentDate : String)
    (amount : Int) (rewards : List Reward) (h : CounterInv data) :
    CounterInv (handleAdjust data currentDate amount) ∧
    CounterInv (autoResetIfNewDay data currentDate) ∧
    CounterInv (resetDaily data currentDate) ∧
    CounterInv (handleCommandState "/重設" data currentDate) ∧
    CounterInv (summarizeDay rewards data currentDate).1 := by
  obtain ⟨ht, hy⟩ := h
  have hroll : CounterInv (autoResetIfNewDay data currentDate) := by
    unfold autoResetIfNewDay
    split
    · exact ⟨le_refl 0, ht⟩
    · exact ⟨ht, hy⟩
  obtain ⟨hrt, hry⟩ := hroll
  refine ⟨?_, ⟨hrt, hry⟩, ?_, ?_, ?_⟩
  · simp only [handleAdjust]
    split
    · exact ⟨le_refl 0, hry⟩
    · next hnot => exact ⟨by simpa using hnot, hry⟩
  · exact ⟨le_refl 0, hrt⟩
  · have hcmd : handleCommandState "/重設" data currentDate =
        { autoResetIfNewDay data currentDate with today := 0 } := by
      simp [handleCommandState]
    rw [hcmd]
    exact ⟨le_refl 0, hry⟩
  · simp only [summarizeDay]
    split
    · exact ⟨hrt, hry⟩
    · exact ⟨hrt, hry⟩

/-- Witness for C8: the invariant holds of a concrete record and is kept
by all five operations at concrete arguments. -/
theorem counter_invariant_preserved_witness :
    CounterInv (handleAdjust ⟨"2024-01-01", 2, 6, 1⟩ "2024-01-02" (-9)) ∧
    CounterInv (autoResetIfNewDay ⟨"2024-01-01", 2, 6, 1⟩ "2024-01-02") ∧
    CounterInv (resetDaily ⟨"2024-01-01", 2, 6, 1⟩ "2024-01-02") ∧
    CounterInv (handleCommandState "/重設" ⟨"2024-01-01", 2, 6, 1⟩ "2024-01-02") ∧
    CounterInv (summarizeDay [] ⟨"2024-01-01", 2, 6, 1⟩ "2024-01-02").1 :=
  counter_invariant_preserved ⟨"2024-01-01", 2, 6, 1⟩ "2024-01-02" (-9) []
    ⟨by decide, by decide⟩

/-- The 20-entry reaction catalogue for counts 1 to 20 (the reactions
array of src/logic.js, identical to countReactions in the later
variant), copied verbatim. -/
def reactions : List String := [
  "今天第 1 支菸。\n超過昨天了，現在是 1 支。還想拿獎勵嗎？\n悠悠聽到後打了個哈欠，抱著自己的尾巴蜷縮在一起，眨了眨眼就睡著了(˘ω˘).｡oO💤～啾～",
  "今天第 2 支菸。\n超過昨天了，現在是 2 支。還想拿獎勵嗎？\n悠悠翻了個身，用小爪子拍拍自己的臉頰，又用尾巴在空中畫圈圈(˶˚ᴗ˚˶)｡oO",
  "今天第 3 支菸。\n超過昨天了，現在是 3 支。還想拿獎勵嗎？\n悠悠抱著小手輕輕揮手，眼睛瞇成一條線，發出輕輕的啾啾聲(๑˃̵ᴗ˂̵)و💨",
  "今天第 4 支菸。\n超過昨天了，現在是 4 支。還想拿獎勵嗎？\n悠悠雙手揣在胸前，腦袋歪了一下(｡･ω･｡)?，尾巴輕輕拍打地面撲通撲通",
  "今天第 5 支菸。\n超過昨天了，現在是 5 支。還想拿獎勵嗎？\n悠悠撓了撓肚子，伸出小爪子做出擁抱姿勢，眼神亮亮地看著你(*´∀`)ﾉ",
  "今天第 6 支菸。\n超過昨天了，現在是 6 支。還想拿獎勵嗎？\n悠悠悄悄地用爪子遮住眼睛，再忽然張開做出驚喜的動作(・∀・)ノ",
  "今天第 7 支菸。\n超過昨天了，現在是 7 支。還想拿獎勵嗎？\n悠悠輕輕搖晃著身體，尾巴繞成小圓圈，最後摟著自己的尾巴躺平嗚嗚～",
  "今天第 8 支菸。\n超過昨天了，現在是 8 支。還想拿獎勵嗎？\n悠悠用小手拍了拍水面，濺出小水花，揮手示意你靠近(*≧ω≦)ゞ",
  "今天第 9 支菸。\n超過昨天了，現在是 9 支。還想拿獎勵嗎？\n悠悠打了個滾，臉頰貼在地上，尾巴翹了起來，做出撒嬌的動作( ˘•ω•˘ )ゝ",
  "今天第 10 支菸。\n超過昨天了，現在是 10 支。還想拿獎勵嗎？\n悠悠撲通一下趴在你面前，用爪子輕撫自己的臉頰，露出期待的眼神(人´∀｀)♡",
  "今天第 11 支菸。\n超過昨天了，現在是 11 支。還想拿獎勵嗎？\n悠悠側身躺著，眼睛眨呀眨，尾巴繞著自己畫圓，像是在思考嗚嗚～",
  "今天第 12 支菸。\n超過昨天了，現在是 12 支。還想拿獎勵嗎？\n悠悠雙手合十放在胸前，臉頰微紅，用力搖頭表示撒嬌的拒絕(๑>◡<๑)",
  "今天第 13 支菸。\n超過昨天了，現在是 13 支。還想拿獎勵嗎？\n悠悠縮成一團，再慢慢伸展四肢，尾巴輕點地面發出啾啾聲(*˘︶˘*).｡oO",
  "今天第 14 支菸。\n超過昨天了，現在是 14 支。還想拿獎勵嗎？\n悠悠抱著自己的尾巴，眨眼微笑，尾巴輕輕拍打著小水花(≧▽≦)ゞ",
  "今天第 15 支菸。\n超過昨天了，現在是 15 支。還想拿獎勵嗎？\n悠悠用小爪子捂住嘴巴，像是在打呵欠，又伸手向你討摸摸(˶‾᷄ ⁻̫ ‾᷅˵)",
  "今天第 16 支菸。\n超過昨天了，現在是 16 支。還想拿獎勵嗎？\n悠悠用爪子拍拍水面，然後抬頭看著你，尾巴繞了幾圈後停在胸前(˘･ᴗ･˘)",
  "今天第 17 支菸。\n超過昨天了，現在是 17 支。還想拿獎勵嗎？\n悠悠將小手放在臉旁，眨眼賣萌，用尾巴輕拍自己像在自言自語(｡>﹏<｡)",
  "今天第 18 支菸。\n超過昨天了，現在是 18 支。還想拿獎勵嗎？\n悠悠在原地打了個滾，抱著自己的尾巴撒嬌，耳邊傳來輕輕的啾啾聲(づ｡◕‿‿◕｡)づ",
  "今天第 19 支菸。\n超過昨天了，現在是 19 支。還想拿獎勵嗎？\n悠悠把尾巴繞成愛心形狀，輕輕點頭又搖頭，像是在表示矛盾(♡˙︶˙♡)",
  "今天第 20 支菸。\n超過昨天了，現在是 20 支。還想拿獎勵嗎？\n悠悠抱著自己的尾巴在水面上慢慢打轉，最後靠在你腳邊睡著了( ᐡ-ܫ-ᐡ )💤"]

/-- generateResponse (src/logic.js): for counts 1 to 20 the fixed
catalogue entry at index today - 1; for zero a fixed encouragement; above
20 a built message stating the count, one comparison clause against
yesterday, and a fixed closing flourish.  The JS template interpolation
of the integer count is embedded as toString. -/
def generateResponse (data : CounterData) : String :=
  let n := data.today
  if 1 ≤ n ∧ n ≤ 20 then
    reactions.getD (n - 1).toNat ""
  else if n = 0 then
    "今天還沒抽菸，保持下去！悠悠雙手合掌為你打氣(๑˃̵ᴗ˂̵)و"
  else
    let message := "今天第 " ++ toString n ++ " 支菸。"
    let message :=
      if n < data.yesterday then
        message ++ ("\n比昨天少了 " ++ toString (data.yesterday - n) ++ " 支，不錯喔！")
      else if n = data.yesterday then
        message ++ "\n已經跟昨天一樣多了，要克制唷。"
      else
        message ++ ("\n超過昨天了，現在是 " ++ toString n ++ " 支。還想拿獎勵嗎？")
    message ++ "\n悠悠歪著頭看看你，尾巴在身旁劃圈，似乎在思考(｡･ω･｡)?"

/-- C6: for today between 1 and 20 the response is, byte for byte, the
catalogue entry at index today - 1 of the 20-entry catalogue,
independent of every other field of the record; and for today = 0 it is
the fixed no-cigarettes-yet encouragement string. -/
theorem generateResponse_small_counts :
    reactions.length = 20 ∧
    (∀ data : CounterData, 1 ≤ data.today → data.today ≤ 20 →
      generateResponse data = reactions.getD (data.today - 1).toNat "") ∧
    (∀ d1 d2 : CounterData, d1.today = d2.today → 1 ≤ d1.today → d1.today ≤ 20 →
      generateResponse d1 = generateResponse d2) ∧
    (∀ data : CounterData, data.today = 0 →
      generateResponse data = "今天還沒抽菸，保持下去！悠悠雙手合掌為你打氣(๑˃̵ᴗ˂̵)و") := by
  have hin : ∀ data : CounterData, 1 ≤ data.today → data.today ≤ 20 →
      generateResponse data = reactions.getD (data.today - 1).toNat "" := by
    intro data h1 h2
    unfold generateResponse
    rw [if_pos ⟨h1, h2⟩]
  refine ⟨rfl, hin, ?_, ?_⟩
  · intro d1 d2 heq h1 h2
    rw [hin d1 h1 h2, hin d2 (heq ▸ h1) (heq ▸ h2), heq]
  · intro data h0
    unfold generateResponse
    rw [if_neg (by omega), if_pos h0]

/-- Witness for C6: a record with today = 5 gets exactly the fifth
catalogue entry, whatever yesterday and streak hold. -/
theorem generateResponse_small_counts_witness :
    generateResponse ⟨"2024-01-02", 5, 17, 9⟩ =
      reactions.getD (((5 : Int) - 1)).toNat "" :=
  generateResponse_small_counts.2.1 ⟨"2024-01-02", 5, 17, 9⟩ (by decide) (by decide)

/-- C7: for today above 20 the response states the count, then exactly
one comparison clause: fewer than yesterday by the difference when
today < yesterday, same as yesterday when equal, exceeded yesterday at
the current count otherwise, and then the fixed closing flourish. -/
theorem generateResponse_large_counts (data : CounterData) (h : 20 < data.today) :
    generateResponse data =
      "今天第 " ++ toString data.today ++ " 支菸。" ++
      (if data.today < data.yesterday then
        "\n比昨天少了 " ++ toString (data.yesterday - data.today) ++ " 支，不錯喔！"
      else if data.today = data.yesterday then
        "\n已經跟昨天一樣多了，要克制唷。"
      else
        "\n超過昨天了，現在是 " ++ toString data.today ++ " 支。還想拿獎勵嗎？") ++
      "\n悠悠歪著頭看看你，尾巴在身旁劃圈，似乎在思考(｡･ω･｡)?" := by
  unfold generateResponse
  rw [if_neg (by omega), if_neg (by omega)]
  dsimp only
  split
  · rfl
  · split <;> rfl

/-- Witness for C7: today 25 against yesterday 30 produces the message
with the fewer-by-5 clause (the 比昨天少了 5 支 substring). -/
theorem generateResponse_large_counts_witness :
    generateResponse ⟨"2024-01-02", 25, 30, 0⟩ =
      "今天第 25 支菸。" ++ "\n比昨天少了 5 支，不錯喔！" ++
      "\n悠悠歪著頭看看你，尾巴在身旁劃圈，似乎在思考(｡･ω･｡)?" := by
  rw [generateResponse_large_counts ⟨"2024-01-02", 25, 30, 0⟩ (by decide)]
  rfl

/-- ASCII-lowercase a string, character by character.  This embeds the
case-insensitive (i-flag) matching of the classifier regexes in
src/logic.js: every cased character occurring in those patterns is an
ASCII letter and the patterns are written in lower case, so testing the
lowercased message for the literal pattern is the same test. -/
def lowerStr (s : String) : String :=
  String.mk (s.data.map Char.toLower)

/-- Substring occurrence: does pat occur contiguously in the character
list?  This is what an i-flag-free regex literal alternative tests. -/
def hasSub (pat : List Char) : List Char → Bool
  | [] => pat.isEmpty
  | c :: t => pat.isPrefixOf (c :: t) || hasSub pat t

/-- Test a list of literal regex alternatives against the lowercased
message, as in the classifier patterns of getActionCategory. -/
def testAny (pats : List String) (message : String) : Bool :=
  pats.any fun p => hasSub p.data (lowerStr message).data

/-- The JS regex whitespace class backslash-s. -/
def isJsSpace (c : Char) : Bool :=
  c = ' ' || ('\t' ≤ c && c ≤ '\x0d') || c.val = 0x00A0 || c.val = 0x1680 ||
  (0x2000 ≤ c.val && c.val ≤ 0x200A) || c.val = 0x2028 || c.val = 0x2029 ||
  c.val = 0x202F || c.val = 0x205F || c.val = 0x3000 || c.val = 0xFEFF

/-- Does the good-whitespace*-night alternative of the night pattern
match starting at the head of the character list? -/
def goodNightAt (cs : List Char) : Bool :=
  ['g', 'o', 'o', 'd'].isPrefixOf cs &&
  ['n', 'i', 'g', 'h', 't'].isPrefixOf ((cs.drop 4).dropWhile isJsSpace)

/-- Does the good-whitespace*-night alternative match anywhere in the
character list? -/
def goodNightSub : List Char → Bool
  | [] => false
  | c :: t => goodNightAt (c :: t) || goodNightSub t

/-- The first classifier pattern of getActionCategory (src/logic.js):
早安, 早上好 or morning, case-insensitively. -/
def matchMorning (message : String) : Bool :=
  testAny ["早安", "早上好", "morning"] message

/-- The second classifier pattern: 晚安, or good then optional whitespace
then night, case-insensitively. -/
def matchNight (message : String) : Bool :=
  testAny ["晚安"] message || goodNightSub (lowerStr message).data

/-- The third classifier pattern: 摸, 撫摸, 摸摸 or pat,
case-insensitively. -/
def matchPetting (message : String) : Bool :=
  testAny ["摸", "撫摸", "摸摸", "pat"] message

/-- The fourth classifier pattern: 看電視, 看电视 or tv,
case-insensitively. -/
def matchTv (message : String) : Bool :=
  testAny ["看電視", "看电视", "tv"] message

/-- getActionCategory (src/logic.js): test the four keyword patterns in
order, first match wins, falling back to the default category. -/
def getActionCategory (message : String) : String :=
  if matchMorning message then "morning"
  else if matchNight message then "night"
  else if matchPetting message then "pat"
  else if matchTv message then "tv"
  else "default"

/-- C9: the classifier evaluates its ordered pattern list with
first-match-wins semantics: 早安 classifies as morning, a message
matching no pattern classifies as default, and a message matching
several patterns gets the category of the earliest matching pattern. -/
theorem getActionCategory_first_match :
    getActionCategory "早安" = "morning" ∧
    (∀ m : String, matchMorning m = false → matchNight m = false →
      matchPetting m = false → matchTv m = false →
      getActionCategory m = "default") ∧
    (∀ m : String, matchMorning m = true → getActionCategory m = "morning") ∧
    (∀ m : String, matchMorning m = false → matchNight m = true →
      getActionCategory m = "night") ∧
    (∀ m : String, matchMorning m = false → matchNight m = false →
      matchPetting m = true → getActionCategory m = "pat") ∧
    (∀ m : String, matchMorning m = false → matchNight m = false →
      matchPetting m = false → matchTv m = true → getActionCategory m = "tv") := by
  refine ⟨by decide, ?_, ?_, ?_, ?_, ?_⟩
  · intro m h1 h2 h3 h4
    simp [getActionCategory, h1, h2, h3, h4]
  · intro m h1
    simp [getActionCategory, h1]
  · intro m h1 h2
    simp [getActionCategory, h1, h2]
  · intro m h1 h2 h3
    simp [getActionCategory, h1, h2, h3]
  · intro m h1 h2 h3 h4
    simp [getActionCategory, h1, h2, h3, h4]

/-- Witness for C9: 早安晚安 matches both the morning and the night
patterns and is classified as morning, the earlier pattern. -/
theorem getActionCategory_first_match_witness :
    matchMorning "早安晚安" = true ∧ matchNight "早安晚安" = true ∧
    getActionCategory "早安晚安" = "morning" :=
  ⟨by decide, by decide,
   getActionCategory_first_match.2.2.1 "早安晚安" (by decide)⟩

/-- The three-way routing of an inbound trimmed text message by the
webhook handler in src/index.js: a numeric adjustment, a slash command,
or a free-text interaction. -/
inductive Route where
  | adjust (amount : Int)
  | command
  | interaction
  deriving DecidableEq, Repr

/-- Numeric value of a digit string, as parseInt reads the digits. -/
def digitsVal (ds : List Char) : Nat :=
  ds.foldl (fun a c => a * 10 + (c.toNat - 48)) 0

/-- JS parseInt restricted to the router's matched shapes: an optional
leading sign followed by decimal digits (the only strings the router
feeds it after the adjustment regex accepts the message). -/
def parseIntJS (s : String) : Int :=
  match s.data with
  | [] => 0
  | c :: rest =>
    if c = '+' then (digitsVal rest : Int)
    else if c = '-' then -(digitsVal rest : Int)
    else (digitsVal (c :: rest) : Int)

/-- The tail of the adjustment regex of src/index.js: an optional sign
in front of one or more digits. -/
def signedDigits (cs : List Char) : Bool :=
  match cs with
  | [] => false
  | c :: rest =>
    if c = '+' || c = '-' then !rest.isEmpty && rest.all Char.isDigit
    else (c :: rest).all Char.isDigit

/-- The adjustment regex of src/index.js: a leading plus, slash or
minus, an optional sign, then one or more digits, spanning the whole
message. -/
def matchesAdjust (msg : String) : Bool :=
  match msg.data with
  | [] => false
  | c :: rest => (c = '+' || c = '/' || c = '-') && signedDigits rest

/-- The router's cleaning step: strip a leading slash if present before
parsing the signed integer. -/
def cleaned (msg : String) : String :=
  match msg.data with
  | '/' :: rest => String.mk rest
  | _ => msg

/-- Does the message start with a slash (the command guard of the
router)? -/
def startsSlash (msg : String) : Bool :=
  match msg.data with
  | '/' :: _ => true
  | _ => false

/-- The webhook router of src/index.js on a trimmed text message: if the
adjustment regex matches, call handleAdjust with the parsed signed
amount of the message minus any leading slash; otherwise messages
starting with a slash go to handleCommand, and everything else to
handleInteraction. -/
def route (msg : String) : Route :=
  if matchesAdjust msg then Route.adjust (parseIntJS (cleaned msg))
  else if startsSlash msg then Route.command
  else Route.interaction

/-- C10: a message that is a slash followed only by unsigned digits is
routed to handleAdjust with the non-negative amount read from the
digits; it is never routed to the command handler (so it can never get
the invalid-command reply, which only the command handler produces). -/
theorem route_slash_digits (ds : List Char) (hne : ds ≠ [])
    (hdig : ds.all Char.isDigit = true) :
    route (String.mk ('/' :: ds)) = Route.adjust (digitsVal ds) ∧
    0 ≤ (digitsVal ds : Int) ∧
    route (String.mk ('/' :: ds)) ≠ Route.command := by
  obtain ⟨d, t, rfl⟩ : ∃ d t, ds = d :: t := by
    cases ds with
    | nil => exact absurd rfl hne
    | cons d t => exact ⟨d, t, rfl⟩
  have hd : d.isDigit = true := by
    have := List.all_eq_true.mp hdig
    simpa using this d (by simp)
  have hplus : d ≠ '+' := by
    rintro rfl
    exact absurd hd (by decide)
  have hminus : d ≠ '-' := by
    rintro rfl
    exact absurd hd (by decide)
  have hmatch : matchesAdjust (String.mk ('/' :: d :: t)) = true := by
    simp only [matchesAdjust, signedDigits]
    rw [if_neg (by simp [hplus, hminus])]
    simp [hdig]
  have hroute : route (String.mk ('/' :: d :: t)) = Route.adjust (digitsVal (d :: t)) := by
    simp only [route, hmatch, if_pos, cleaned, parseIntJS]
    rw [if_neg hplus, if_neg hminus]
  refine ⟨hroute, Int.natCast_nonneg _, ?_⟩
  rw [hroute]
  simp

/-- Witness for C10: the message /5 is routed to a numeric adjustment of
five and not to the command handler. -/
theorem route_slash_digits_witness :
    route (String.mk ['/', '5']) = Route.adjust (digitsVal ['5']) ∧
    0 ≤ (digitsVal ['5'] : Int) ∧
    route (String.mk ['/', '5']) ≠ Route.command :=
  route_slash_digits ['5'] (by decide) (by decide)
